import Mathlib

/-!
Verification of the CareVerify claim trust-scoring pipeline.

The definitions below are a shallow embedding of the Python sources:
* `ai/models/ensemble_engine.py` — ensemble trust scoring, confidence,
  recommendation, rule-based fraud fallback;
* `app/services/revalidation_service.py` — workflow decision logic;
* `app/services/extraction_service.py` — medical fact extraction;
* `ai/pipeline/feature_engineering.py` — feature construction, duplicate check.

Python floats are modelled as rationals (`ℚ`); Python's `round(x, n)`
(round half to even) is modelled by `rhe`/`roundTo`.
-/

namespace CareVerify

/-- Round half to even, to an integer (semantics of Python `round` on exact values). -/
def rhe (q : ℚ) : ℤ :=
  if q - ⌊q⌋ < 1/2 then ⌊q⌋
  else if 1/2 < q - ⌊q⌋ then ⌊q⌋ + 1
  else if ⌊q⌋ % 2 = 0 then ⌊q⌋ else ⌊q⌋ + 1

/-- Python `round(q, digits)`. -/
def roundTo (digits : ℕ) (q : ℚ) : ℚ :=
  (rhe (q * 10 ^ digits) : ℚ) / 10 ^ digits

/-- `np.clip(x, lo, hi)`. -/
def clip (lo hi x : ℚ) : ℚ :=
  if x < lo then lo else if hi < x then hi else x

/-- Python `min(a, b)`. -/
def pymin (a b : ℚ) : ℚ :=
  if a ≤ b then a else b

/-! ### Ensemble engine (`ai/models/ensemble_engine.py`) -/

/-- `WEIGHTS["xgboost"]` — fraud probability weight (inverted). -/
def wXgboost : ℚ := 30/100

/-- `WEIGHTS["rf"]` — approval likelihood weight. -/
def wRf : ℚ := 25/100

/-- `WEIGHTS["isolation"]` — statistical anomaly weight (inverted). -/
def wIsolation : ℚ := 20/100

/-- `WEIGHTS["autoencoder"]` — deep anomaly weight (inverted). -/
def wAutoencoder : ℚ := 15/100

/-- `WEIGHTS["nlp"]` — document consistency weight (inverted). -/
def wNlp : ℚ := 10/100

/-- `EnsembleIntelligenceEngine._compute_trust_score`: weighted combination of the
five model scores, scaled to 0–100, clipped and rounded to two decimals. -/
def compute_trust_score (xgb rf iso ae nlp : ℚ) : ℚ :=
  let trust :=
    wXgboost * (1 - xgb) +
    wRf * rf +
    wIsolation * (1 - iso) +
    wAutoencoder * (1 - ae) +
    wNlp * (1 - nlp)
  roundTo 2 (clip 0 100 (trust * 100))

/-- Population variance (`np.var`) of a list of scores. -/
def varianceOf (scores : List ℚ) : ℚ :=
  let n : ℚ := scores.length
  let mean := scores.sum / n
  (scores.map (fun s => (s - mean) ^ 2)).sum / n

/-- `EnsembleIntelligenceEngine._compute_confidence`: inverse of score variance,
clipped to [0.1, 1.0] and rounded to three decimals. -/
def compute_confidence (scores : List ℚ) : ℚ :=
  roundTo 3 (clip (1/10) 1 (1 - pymin (varianceOf scores * 4) (9/10)))

/-- The four categorical recommendations of the engine. -/
inductive Recommendation where
  | AUTO_APPROVE
  | APPROVE_WITH_REVIEW
  | COMPLIANCE_REVIEW_REQUIRED
  | HIGH_RISK_HOLD
deriving DecidableEq, Repr

/-- `EnsembleIntelligenceEngine._determine_recommendation`. -/
def determine_recommendation (trust_score : ℚ) : Recommendation :=
  if trust_score ≥ 85 then .AUTO_APPROVE
  else if trust_score ≥ 60 then .APPROVE_WITH_REVIEW
  else if trust_score ≥ 40 then .COMPLIANCE_REVIEW_REQUIRED
  else .HIGH_RISK_HOLD

/-- `ClaimFeatures` (dataclass in `ensemble_engine.py`), with the source defaults. -/
structure ClaimFeatures where
  claimed_amount : ℚ := 0
  patient_age : ℚ := 0
  length_of_stay : ℚ := 0
  procedure_count : ℚ := 0
  diagnosis_count : ℚ := 0
  org_trust_score : ℚ := 50
  org_historical_fraud_rate : ℚ := 5/100
  org_claim_volume_30d : ℚ := 0
  amount_vs_org_avg : ℚ := 1
  amount_vs_procedure_avg : ℚ := 1
  is_weekend_admission : ℚ := 0
  is_holiday : ℚ := 0
  has_high_value_procedures : ℚ := 0
  duplicate_claim_flag : ℚ := 0
  rapid_readmission : ℚ := 0
  unusual_provider_combo : ℚ := 0
  nlp_inconsistency_score : ℚ := 0
  nlp_urgency_score : ℚ := 0
  ocr_completeness_score : ℚ := 1
  missing_required_fields : ℚ := 0
deriving DecidableEq, Repr

/-- `EnsembleIntelligenceEngine._extract_feature_vector`: the fixed 20-entry
feature row in source order (indices 0–19). -/
def extract_feature_vector (f : ClaimFeatures) : List ℚ :=
  [f.claimed_amount, f.patient_age, f.length_of_stay, f.procedure_count,
   f.diagnosis_count, f.org_trust_score, f.org_historical_fraud_rate,
   f.org_claim_volume_30d, f.amount_vs_org_avg, f.amount_vs_procedure_avg,
   f.is_weekend_admission, f.is_holiday, f.has_high_value_procedures,
   f.duplicate_claim_flag, f.rapid_readmission, f.unusual_provider_combo,
   f.nlp_inconsistency_score, f.nlp_urgency_score, f.ocr_completeness_score,
   f.missing_required_fields]

/-- `EnsembleIntelligenceEngine._rule_based_fraud_score` over the feature row `X`:
`X[0,8]` is `amount_vs_org_avg`, `X[0,13]` the duplicate flag, `X[0,14]` the
rapid-readmission flag. -/
def rule_based_fraud_score (X : List ℚ) : ℚ :=
  let score : ℚ :=
    (if X.getD 8 0 > 3 then 3/10 else 0) +
    (if X.getD 13 0 = 1 then 4/10 else 0) +
    (if X.getD 14 0 = 1 then 2/10 else 0)
  clip 0 1 score

/-- `EnsembleIntelligenceEngine._rule_based_approval_score`:
`X[0,19]` is `missing_required_fields`, `X[0,8]` is `amount_vs_org_avg`. -/
def rule_based_approval_score (X : List ℚ) : ℚ :=
  let score : ℚ := 7/10 -
    (if X.getD 19 0 > 2 then 3/10 else 0) -
    (if X.getD 8 0 > 2 then 2/10 else 0)
  clip 0 1 score

/-- `EnsembleIntelligenceEngine._rule_based_anomaly_score`:
`X[0,9]` is `amount_vs_procedure_avg`, `X[0,2]` is `length_of_stay`. -/
def rule_based_anomaly_score (X : List ℚ) : ℚ :=
  let score : ℚ :=
    (if X.getD 9 0 > 3 then 4/10 else 0) +
    (if X.getD 2 0 > 30 then 2/10 else 0)
  clip 0 1 score

/-! ### Revalidation service (`app/services/revalidation_service.py`) -/

/-- `_map_recommendation_to_status`: recommendation → next claim status. -/
def map_recommendation_to_status : Recommendation → String
  | .AUTO_APPROVE => "pending_review"
  | .APPROVE_WITH_REVIEW => "pending_review"
  | .COMPLIANCE_REVIEW_REQUIRED => "compliance_review"
  | .HIGH_RISK_HOLD => "compliance_review"

/-- `_build_reviewer_suggestion`: guidance text for the human reviewer,
checked in source order (AUTO_APPROVE first). -/
def build_reviewer_suggestion (recommendation : Recommendation)
    (detected_risks : List String) : String :=
  if recommendation = .AUTO_APPROVE then
    "Low-risk claim profile. Approve unless manual discrepancy is identified."
  else if detected_risks.contains "MISSING_AUTHORIZATION" then
    "Authorization evidence missing. Request prior authorization document before approval."
  else if recommendation = .HIGH_RISK_HOLD then
    "High-risk hold recommended. Escalate to compliance specialist for manual review."
  else
    "Proceed with targeted compliance review on extracted risk indicators."

/-- The workflow decision fields computed by `RevalidationService.revalidate_claim`. -/
structure RevalidationDecision where
  next_status : String
  workflow_stage : String
  auto_approval_eligible : Bool
  reviewer_suggestion : String
deriving DecidableEq, Repr

/-- The decision logic of `RevalidationService.revalidate_claim` (lines 98–112):
workflow stage from the recommendation, auto-approval eligibility, reviewer
suggestion, next status, and the draft-status override. -/
def revalidation_decision (claim_status : String) (recommendation : Recommendation)
    (detected_risks : List String) : RevalidationDecision :=
  let workflow_stage0 : String :=
    if recommendation = .AUTO_APPROVE then "auto_approval_review" else "compliance_review"
  let auto_approval_eligible : Bool :=
    recommendation == .AUTO_APPROVE
      && !(detected_risks.contains "MISSING_AUTHORIZATION")
      && !(detected_risks.contains "MISSING_PROVIDER_IDENTIFIER")
  let reviewer_suggestion := build_reviewer_suggestion recommendation detected_risks
  let next_status0 := map_recommendation_to_status recommendation
  let next_status := if claim_status = "draft" then "draft" else next_status0
  let workflow_stage :=
    if claim_status = "draft" then "pre_submission_revalidation" else workflow_stage0
  ⟨next_status, workflow_stage, auto_approval_eligible, reviewer_suggestion⟩

/-! ### Extraction service (`app/services/extraction_service.py`) -/

/-- `ExtractedFacts` (dataclass in `extraction_service.py`). -/
structure ExtractedFacts where
  diagnosis_codes : List String
  procedure_codes : List String
  physician_identifiers : List String
  authorization_indicators : List String
  matched_policies : List String
  detected_risks : List String
  is_consistent : Bool
  confidence : ℚ
  summary : String
deriving DecidableEq, Repr

/-- Python `sorted(set(xs))` on strings: deduplicate, then sort lexicographically. -/
def sortedSet (xs : List String) : List String :=
  (xs.dedup).mergeSort (fun a b => a ≤ b)

/-- `MedicalExtractionService._build_policy_and_risk_signals`. -/
def build_policy_and_risk_signals (diagnosis_codes procedure_codes
    physician_identifiers authorization_indicators : List String) :
    List String × List String × Bool :=
  let policies : List String :=
    (if diagnosis_codes ≠ [] ∧ procedure_codes ≠ [] then ["DIAGNOSIS_PROCEDURE_LINKED"] else [])
    ++ (if authorization_indicators ≠ [] then ["PRIOR_AUTH_MATCHED"] else [])
    ++ (if physician_identifiers ≠ [] then ["PROVIDER_IDENTIFIER_PRESENT"] else [])
  let risks : List String :=
    (if diagnosis_codes ≠ [] ∧ procedure_codes ≠ [] then [] else ["DIAGNOSIS_PROCEDURE_MISMATCH"])
    ++ (if authorization_indicators ≠ [] then [] else ["MISSING_AUTHORIZATION"])
    ++ (if physician_identifiers ≠ [] then [] else ["MISSING_PROVIDER_IDENTIFIER"])
    ++ (if diagnosis_codes = [] ∧ procedure_codes = [] then ["NO_BILLABLE_CODE_EXTRACTED"] else [])
  let is_consistent :=
    policies.contains "DIAGNOSIS_PROCEDURE_LINKED"
      && policies.contains "PRIOR_AUTH_MATCHED"
      && policies.contains "PROVIDER_IDENTIFIER_PRESENT"
  (sortedSet policies, sortedSet risks, is_consistent)

/-- `MedicalExtractionService.extract`, parameterised over the four regex-based
finder functions (ICD pattern, CPT pattern, physician identifiers,
authorization indicators), which are opaque text scanners to the logic
verified here. -/
def extract (findDiagnosis findProcedure findPhysicians findAuth : String → List String)
    (text : String) : ExtractedFacts :=
  if text = "" then
    ⟨[], [], [], [], [], ["NO_TEXT_AVAILABLE"], false, 0, "No text provided"⟩
  else
    let diagnosis_codes := sortedSet (findDiagnosis text)
    let procedure_codes := sortedSet (findProcedure text)
    let physician_identifiers := findPhysicians text
    let authorization_indicators := findAuth text
    let signals := build_policy_and_risk_signals diagnosis_codes procedure_codes
      physician_identifiers authorization_indicators
    let is_consistent := signals.2.2
    let confidence : ℚ :=
      if is_consistent then 95/100
      else if diagnosis_codes ≠ [] ∨ procedure_codes ≠ [] then 72/100
      else 4/10
    ⟨diagnosis_codes, procedure_codes, physician_identifiers, authorization_indicators,
     signals.1, signals.2.1, is_consistent, confidence,
     "Extracted " ++ toString diagnosis_codes.length ++ " diagnosis code(s), "
       ++ toString procedure_codes.length ++ " procedure code(s), "
       ++ toString physician_identifiers.length ++ " provider identifier(s)."⟩

/-! ### Feature engineering (`ai/pipeline/feature_engineering.py`) -/

/-- A stored claim row, with the fields `_check_duplicate` reads. Timestamps are
days (any linear time scale works for the 90-day window). -/
structure ClaimRow where
  id : String
  patient_id : String
  procedure_codes : List String
  created_at : ℤ
deriving DecidableEq, Repr

/-- `FeatureEngineer._check_duplicate`: flags a duplicate when any other claim of
the same patient was created within the last 90 days. The stored rows' procedure
codes are not consulted. -/
def check_duplicate (db : List ClaimRow) (now : ℤ) (claim : ClaimRow) : Bool :=
  if claim.patient_id = "" then false
  else if claim.procedure_codes = [] then false
  else db.any (fun r =>
    r.patient_id == claim.patient_id
      && r.id != claim.id
      && decide (now - 90 ≤ r.created_at))

/-- Modelled from the spec: "Duplicate-claim flag: true if any other claim for the
same patient and overlapping procedure codes exists within a 90-day trailing
window." -/
def spec_duplicate_flag (db : List ClaimRow) (now : ℤ) (claim : ClaimRow) : Bool :=
  db.any (fun r =>
    r.patient_id == claim.patient_id
      && r.id != claim.id
      && decide (now - 90 ≤ r.created_at)
      && r.procedure_codes.any (fun c => claim.procedure_codes.contains c))

/-! ### Helper lemmas on rounding and clipping -/

theorem floor_le_rhe (q : ℚ) : ⌊q⌋ ≤ rhe q := by
  unfold rhe
  split_ifs <;> omega

theorem rhe_le_floor_add_one (q : ℚ) : rhe q ≤ ⌊q⌋ + 1 := by
  unfold rhe
  split_ifs <;> omega

theorem rhe_mono {q r : ℚ} (h : q ≤ r) : rhe q ≤ rhe r := by
  have hfl : ⌊q⌋ ≤ ⌊r⌋ := Int.floor_mono h
  rcases lt_or_eq_of_le hfl with hlt | heq
  · calc rhe q ≤ ⌊q⌋ + 1 := rhe_le_floor_add_one q
    _ ≤ ⌊r⌋ := by omega
    _ ≤ rhe r := floor_le_rhe r
  · have hfrac : q - ⌊q⌋ ≤ r - ⌊r⌋ := by
      rw [← heq]; linarith
    unfold rhe
    rw [heq] at *
    split_ifs <;> first
      | omega
      | (exfalso; linarith)

theorem roundTo_mono (d : ℕ) {q r : ℚ} (h : q ≤ r) : roundTo d q ≤ roundTo d r := by
  unfold roundTo
  have hp : (0:ℚ) < 10 ^ d := by positivity
  have : rhe (q * 10 ^ d) ≤ rhe (r * 10 ^ d) :=
    rhe_mono (by exact mul_le_mul_of_nonneg_right h (le_of_lt hp))
  have h2 : ((rhe (q * 10 ^ d) : ℚ)) ≤ (rhe (r * 10 ^ d) : ℚ) := by exact_mod_cast this
  gcongr

theorem clip_mono {lo hi : ℚ} (hlh : lo ≤ hi) {x y : ℚ} (h : x ≤ y) :
    clip lo hi x ≤ clip lo hi y := by
  unfold clip
  split_ifs <;> linarith

theorem clip_eq_self {lo hi x : ℚ} (h1 : lo ≤ x) (h2 : x ≤ hi) : clip lo hi x = x := by
  unfold clip
  split_ifs with hl hh
  · linarith
  · linarith
  · rfl

theorem clip_mem (lo hi x : ℚ) (h : lo ≤ hi) : lo ≤ clip lo hi x ∧ clip lo hi x ≤ hi := by
  unfold clip
  split_ifs <;> constructor <;> linarith

theorem pymin_mono_left (c : ℚ) {a b : ℚ} (h : a ≤ b) : pymin a c ≤ pymin b c := by
  unfold pymin
  split_ifs <;> linarith

theorem rhe_eq_low {q : ℚ} {n : ℤ} (h1 : (n:ℚ) ≤ q) (h2 : q - n < 1/2) : rhe q = n := by
  have hfl : ⌊q⌋ = n := Int.floor_eq_iff.mpr ⟨h1, by linarith⟩
  unfold rhe
  rw [hfl, if_pos h2]

theorem rhe_eq_high {q : ℚ} {n : ℤ} (h1 : (n:ℚ) + 1/2 < q) (h2 : q < n + 1) : rhe q = n + 1 := by
  have hfl : ⌊q⌋ = n := Int.floor_eq_iff.mpr ⟨by linarith, by linarith⟩
  unfold rhe
  rw [hfl, if_neg (by linarith), if_pos (by linarith)]

theorem roundTo_eq_low (d : ℕ) (q : ℚ) (n : ℤ) (h1 : (n:ℚ) ≤ q * 10 ^ d)
    (h2 : q * 10 ^ d - n < 1/2) : roundTo d q = (n:ℚ) / 10 ^ d := by
  unfold roundTo
  rw [rhe_eq_low h1 h2]

theorem roundTo_eq_high (d : ℕ) (q : ℚ) (n : ℤ) (h1 : (n:ℚ) + 1/2 < q * 10 ^ d)
    (h2 : q * 10 ^ d < n + 1) : roundTo d q = ((n:ℚ) + 1) / 10 ^ d := by
  unfold roundTo
  rw [rhe_eq_high h1 h2]
  push_cast
  ring

theorem contains_iff_mem (l : List String) (a : String) : l.contains a ↔ a ∈ l := by
  simp

/-! ### Claim theorems -/

/-- Claim C1: for all model scores fraud, approval, stat_anom, deep_anom,
doc_inconsistency in [0,1], the ensemble trust score equals
100 × (0.30(1−fraud) + 0.25(approval) + 0.20(1−stat_anom) + 0.15(1−deep_anom)
+ 0.10(1−doc_inconsistency)), clipped to [0,100] and rounded to two decimals;
under these bounds the clipping is moreover a no-op. -/
theorem trust_score_is_weighted_formula (xgb rf iso ae nlp : ℚ)
    (hx0 : 0 ≤ xgb) (hx1 : xgb ≤ 1) (hr0 : 0 ≤ rf) (hr1 : rf ≤ 1)
    (hi0 : 0 ≤ iso) (hi1 : iso ≤ 1) (ha0 : 0 ≤ ae) (ha1 : ae ≤ 1)
    (hn0 : 0 ≤ nlp) (hn1 : nlp ≤ 1) :
    compute_trust_score xgb rf iso ae nlp =
      roundTo 2 (clip 0 100 (100 * (30/100 * (1 - xgb) + 25/100 * rf
        + 20/100 * (1 - iso) + 15/100 * (1 - ae) + 10/100 * (1 - nlp)))) ∧
    compute_trust_score xgb rf iso ae nlp =
      roundTo 2 (100 * (30/100 * (1 - xgb) + 25/100 * rf
        + 20/100 * (1 - iso) + 15/100 * (1 - ae) + 10/100 * (1 - nlp))) := by
  have harg : (wXgboost * (1 - xgb) + wRf * rf + wIsolation * (1 - iso) +
      wAutoencoder * (1 - ae) + wNlp * (1 - nlp)) * 100
      = 100 * (30/100 * (1 - xgb) + 25/100 * rf + 20/100 * (1 - iso)
        + 15/100 * (1 - ae) + 10/100 * (1 - nlp)) := by
    unfold wXgboost wRf wIsolation wAutoencoder wNlp
    ring
  have hb0 : (0:ℚ) ≤ 100 * (30/100 * (1 - xgb) + 25/100 * rf + 20/100 * (1 - iso)
      + 15/100 * (1 - ae) + 10/100 * (1 - nlp)) := by linarith
  have hb1 : 100 * (30/100 * (1 - xgb) + 25/100 * rf + 20/100 * (1 - iso)
      + 15/100 * (1 - ae) + 10/100 * (1 - nlp)) ≤ 100 := by linarith
  constructor
  · simp only [compute_trust_score]
    rw [harg]
  · simp only [compute_trust_score]
    rw [harg, clip_eq_self hb0 hb1]

/-- Claim C2: the recommendation is AUTO_APPROVE iff trust ≥ 85,
APPROVE_WITH_REVIEW iff 60 ≤ trust < 85, COMPLIANCE_REVIEW_REQUIRED iff
40 ≤ trust < 60, HIGH_RISK_HOLD iff trust < 40; boundary examples
85.00, 84.99, 60.00 and 39.99 behave as stated. -/
theorem recommendation_bands :
    (∀ t : ℚ,
      (determine_recommendation t = .AUTO_APPROVE ↔ 85 ≤ t) ∧
      (determine_recommendation t = .APPROVE_WITH_REVIEW ↔ 60 ≤ t ∧ t < 85) ∧
      (determine_recommendation t = .COMPLIANCE_REVIEW_REQUIRED ↔ 40 ≤ t ∧ t < 60) ∧
      (determine_recommendation t = .HIGH_RISK_HOLD ↔ t < 40)) ∧
    determine_recommendation 85 = .AUTO_APPROVE ∧
    determine_recommendation (8499/100) = .APPROVE_WITH_REVIEW ∧
    determine_recommendation 60 = .APPROVE_WITH_REVIEW ∧
    determine_recommendation (3999/100) = .HIGH_RISK_HOLD := by
  have key : ∀ t : ℚ,
      (determine_recommendation t = .AUTO_APPROVE ↔ 85 ≤ t) ∧
      (determine_recommendation t = .APPROVE_WITH_REVIEW ↔ 60 ≤ t ∧ t < 85) ∧
      (determine_recommendation t = .COMPLIANCE_REVIEW_REQUIRED ↔ 40 ≤ t ∧ t < 60) ∧
      (determine_recommendation t = .HIGH_RISK_HOLD ↔ t < 40) := by
    intro t
    unfold determine_recommendation
    split_ifs with h1 h2 h3 <;>
      refine ⟨?_, ?_, ?_, ?_⟩ <;>
      simp only [reduceCtorEq, false_iff, true_iff, iff_true, iff_false,
        not_and, not_lt, not_le] <;>
      first
        | linarith
        | (intro h; linarith)
        | (exact ⟨by linarith, by linarith⟩)
  refine ⟨key, ?_, ?_, ?_, ?_⟩
  · exact (key 85).1.mpr (by norm_num)
  · exact (key (8499/100)).2.1.mpr (by norm_num)
  · exact (key 60).2.1.mpr (by norm_num)
  · exact (key (3999/100)).2.2.2.mpr (by norm_num)

/-- Claim C3: for a claim whose current status is "draft", the revalidation
decision keeps the written-back status at "draft" and forces the workflow stage
to pre_submission_revalidation, for every recommendation and risk list. -/
theorem draft_status_preserved (recommendation : Recommendation)
    (detected_risks : List String) :
    (revalidation_decision "draft" recommendation detected_risks).next_status = "draft" ∧
    (revalidation_decision "draft" recommendation detected_risks).workflow_stage =
      "pre_submission_revalidation" :=
  ⟨rfl, rfl⟩

/-- Claim C4: auto_approval_eligible holds iff the recommendation is AUTO_APPROVE
and neither MISSING_AUTHORIZATION nor MISSING_PROVIDER_IDENTIFIER is among the
detected risks; in particular MISSING_AUTHORIZATION with AUTO_APPROVE gives
false. -/
theorem auto_approval_eligibility :
    (∀ (claim_status : String) (recommendation : Recommendation)
        (detected_risks : List String),
      (revalidation_decision claim_status recommendation
          detected_risks).auto_approval_eligible = true ↔
        (recommendation = .AUTO_APPROVE ∧
          "MISSING_AUTHORIZATION" ∉ detected_risks ∧
          "MISSING_PROVIDER_IDENTIFIER" ∉ detected_risks)) ∧
    (revalidation_decision "submitted" .AUTO_APPROVE
        ["MISSING_AUTHORIZATION"]).auto_approval_eligible = false := by
  constructor
  · intro claim_status recommendation detected_risks
    simp [revalidation_decision, and_assoc]
  · rfl

/-- Claim C7 (evaluation): the duplicate check flags a second claim of the same
patient inside the 90-day window even when its procedure codes are disjoint from
the current claim's, contradicting the specified overlapping-codes condition. -/
theorem duplicate_check_ignores_procedure_codes :
    check_duplicate [⟨"B", "P", ["22222"], 95⟩] 100 ⟨"A", "P", ["11111"], 100⟩ = true ∧
    spec_duplicate_flag [⟨"B", "P", ["22222"], 95⟩] 100 ⟨"A", "P", ["11111"], 100⟩ = false :=
  ⟨rfl, rfl⟩

/-- Claim C10: the extractor applied to empty input text returns the fixed
"no text" result: zero confidence, the single risk NO_TEXT_AVAILABLE, no
diagnosis/procedure codes, no matched policies, and is_consistent false. -/
theorem extract_empty_text
    (findDiagnosis findProcedure findPhysicians findAuth : String → List String) :
    (extract findDiagnosis findProcedure findPhysicians findAuth "").confidence = 0 ∧
    (extract findDiagnosis findProcedure findPhysicians findAuth "").detected_risks =
      ["NO_TEXT_AVAILABLE"] ∧
    (extract findDiagnosis findProcedure findPhysicians findAuth "").diagnosis_codes = [] ∧
    (extract findDiagnosis findProcedure findPhysicians findAuth "").procedure_codes = [] ∧
    (extract findDiagnosis findProcedure findPhysicians findAuth "").matched_policies = [] ∧
    (extract findDiagnosis findProcedure findPhysicians findAuth "").is_consistent = false :=
  ⟨rfl, rfl, rfl, rfl, rfl, rfl⟩

/-- Confidence bounds helper: rounding a value clipped to [1/10, 1] stays in
[1/10, 1], since both endpoints are exactly representable at three decimals. -/
theorem roundTo3_clip_bounds (x : ℚ) :
    1/10 ≤ roundTo 3 (clip (1/10) 1 x) ∧ roundTo 3 (clip (1/10) 1 x) ≤ 1 := by
  have hlo : roundTo 3 ((1:ℚ)/10) = 1/10 := by
    rw [roundTo_eq_low 3 (1/10) 100 (by norm_num) (by norm_num)]
    norm_num
  have hhi : roundTo 3 ((1:ℚ)) = 1 := by
    rw [roundTo_eq_low 3 1 1000 (by norm_num) (by norm_num)]
    norm_num
  have hmem := clip_mem (1/10) 1 x (by norm_num)
  constructor
  · have hm := roundTo_mono 3 hmem.1
    rw [hlo] at hm
    exact hm
  · have hm := roundTo_mono 3 hmem.2
    rw [hhi] at hm
    exact hm

/-- Claim C5 (counterexample): at scores [0, 0, 0, 1/4] the confidence is 0.953
(the rounded value), not the raw clip value 61/64 = 0.953125 the claim
prescribes. -/
theorem confidence_not_raw_clip :
    compute_confidence [0, 0, 0, 1/4] ≠
      clip (1/10) 1 (1 - pymin (4 * varianceOf [0, 0, 0, 1/4]) (9/10)) := by
  have hv : varianceOf [0, 0, 0, 1/4] = 3/256 := by
    simp [varianceOf]
    norm_num
  have hmin : pymin ((3:ℚ)/256 * 4) (9/10) = 3/64 := by
    unfold pymin
    norm_num
  have hmin2 : pymin (4 * ((3:ℚ)/256)) (9/10) = 3/64 := by
    unfold pymin
    norm_num
  have hclip : clip (1/10) 1 (1 - (3:ℚ)/64) = 61/64 := by
    unfold clip
    norm_num
  have hlhs : compute_confidence [0, 0, 0, 1/4] = 953/1000 := by
    unfold compute_confidence
    rw [hv, hmin, hclip, roundTo_eq_low 3 (61/64) 953 (by norm_num) (by norm_num)]
    norm_num
  have hrhs : clip (1/10) 1 (1 - pymin (4 * varianceOf [0, 0, 0, 1/4]) (9/10)) = 61/64 := by
    rw [hv, hmin2, hclip]
  rw [hlhs, hrhs]
  norm_num

/-- Claim C5 (amended): the confidence over the four non-text model scores is
clip(1 − min(4·variance, 0.9), 0.1, 1.0) rounded to three decimals; it always
lies in [0.1, 1.0] and is non-increasing as the variance of the scores
increases. -/
theorem confidence_formula_and_monotone (a b c d : ℚ) :
    compute_confidence [a, b, c, d] =
      roundTo 3 (clip (1/10) 1 (1 - pymin (4 * varianceOf [a, b, c, d]) (9/10))) ∧
    1/10 ≤ compute_confidence [a, b, c, d] ∧
    compute_confidence [a, b, c, d] ≤ 1 ∧
    (∀ a2 b2 c2 d2 : ℚ,
      varianceOf [a, b, c, d] ≤ varianceOf [a2, b2, c2, d2] →
      compute_confidence [a2, b2, c2, d2] ≤ compute_confidence [a, b, c, d]) := by
  refine ⟨?_, (roundTo3_clip_bounds _).1, (roundTo3_clip_bounds _).2, ?_⟩
  · unfold compute_confidence
    rw [mul_comm]
  · intro a2 b2 c2 d2 h
    unfold compute_confidence
    apply roundTo_mono 3
    apply clip_mono (by norm_num)
    have hmin := pymin_mono_left (9/10)
      (mul_le_mul_of_nonneg_right h (by norm_num : (0:ℚ) ≤ 4))
    linarith

/-- Claim C5 (witness): equal-variance score lists compare as the monotonicity
statement requires. -/
theorem confidence_formula_and_monotone_witness :
    compute_confidence [0, 0, 0, 1] ≤ compute_confidence [0, 0, 0, 0] := by
  apply (confidence_formula_and_monotone 0 0 0 0).2.2.2 0 0 0 1
  simp [varianceOf]
  norm_num

/-- Field-level reading of the fraud fallback: index 8 of the feature row is
amount_vs_org_avg, 13 the duplicate flag, 14 the rapid-readmission flag. -/
theorem fraud_score_shape (f : ClaimFeatures) :
    rule_based_fraud_score (extract_feature_vector f) =
      clip 0 1 ((if f.amount_vs_org_avg > 3 then 3/10 else 0)
        + (if f.duplicate_claim_flag = 1 then 4/10 else 0)
        + (if f.rapid_readmission = 1 then 2/10 else 0)) := rfl

/-- Evaluation of the fraud fallback on the 6.15-ratio scenario with both
flags set. -/
theorem fraud_score_scenario_eval :
    rule_based_fraud_score (extract_feature_vector
      { amount_vs_org_avg := 123/20, duplicate_claim_flag := 1,
        rapid_readmission := 1 }) = 9/10 := by
  rw [fraud_score_shape]
  show clip 0 1 ((if ((123:ℚ)/20) > 3 then (3:ℚ)/10 else 0)
      + (if (1:ℚ) = 1 then (4:ℚ)/10 else 0)
      + (if (1:ℚ) = 1 then (2:ℚ)/10 else 0)) = 9/10
  rw [show ((if ((123:ℚ)/20) > 3 then (3:ℚ)/10 else 0)
      + (if (1:ℚ) = 1 then (4:ℚ)/10 else 0)
      + (if (1:ℚ) = 1 then (2:ℚ)/10 else 0)) = 9/10 by norm_num]
  unfold clip
  norm_num

/-- Claim C6 (amended): the rule-based fraud fallback adds 0.3 when
amount_vs_org_avg > 3, 0.4 when the duplicate flag is set and 0.2 when the
rapid-readmission flag is set, clipping the sum to [0,1]; for the scenario with
ratio 6.15 and both flags set the score is 0.9 (inside the range, so the clip
leaves it unchanged). -/
theorem fraud_fallback_rule :
    (∀ f : ClaimFeatures,
      rule_based_fraud_score (extract_feature_vector f) =
        clip 0 1 ((if f.amount_vs_org_avg > 3 then 3/10 else 0)
          + (if f.duplicate_claim_flag = 1 then 4/10 else 0)
          + (if f.rapid_readmission = 1 then 2/10 else 0))) ∧
    rule_based_fraud_score (extract_feature_vector
      { amount_vs_org_avg := 123/20, duplicate_claim_flag := 1,
        rapid_readmission := 1 }) = 9/10 :=
  ⟨fraud_score_shape, fraud_score_scenario_eval⟩

/-- Claim C6 (counterexample): in the 6.15-ratio scenario with both flags set,
the fallback score is not 1.0. -/
theorem fraud_fallback_scenario_not_one :
    rule_based_fraud_score (extract_feature_vector
      { amount_vs_org_avg := 123/20, duplicate_claim_flag := 1,
        rapid_readmission := 1 }) ≠ 1 := by
  rw [fraud_score_scenario_eval]
  norm_num

/-- Claim C8 (counterexample): with recommendation AUTO_APPROVE and
MISSING_AUTHORIZATION among the risks, the code returns the approval text, not
the request-authorization text the claim's priority order prescribes. -/
theorem reviewer_suggestion_order_counterexample :
    build_reviewer_suggestion .AUTO_APPROVE ["MISSING_AUTHORIZATION"] =
      "Low-risk claim profile. Approve unless manual discrepancy is identified." ∧
    ("Low-risk claim profile. Approve unless manual discrepancy is identified." : String) ≠
      "Authorization evidence missing. Request prior authorization document before approval." :=
  ⟨rfl, by decide⟩

/-- Claim C8 (amended): the reviewer guidance is selected by this priority order:
AUTO_APPROVE → advise approval; otherwise authorization-missing risk present →
request the prior-authorization document; otherwise HIGH_RISK_HOLD → escalate to
a compliance specialist; otherwise → targeted compliance review. -/
theorem reviewer_suggestion_order (recommendation : Recommendation)
    (detected_risks : List String) :
    (recommendation = .AUTO_APPROVE →
      build_reviewer_suggestion recommendation detected_risks =
        "Low-risk claim profile. Approve unless manual discrepancy is identified.") ∧
    (recommendation ≠ .AUTO_APPROVE → "MISSING_AUTHORIZATION" ∈ detected_risks →
      build_reviewer_suggestion recommendation detected_risks =
        "Authorization evidence missing. Request prior authorization document before approval.") ∧
    (recommendation = .HIGH_RISK_HOLD → "MISSING_AUTHORIZATION" ∉ detected_risks →
      build_reviewer_suggestion recommendation detected_risks =
        "High-risk hold recommended. Escalate to compliance specialist for manual review.") ∧
    (recommendation ≠ .AUTO_APPROVE → recommendation ≠ .HIGH_RISK_HOLD →
      "MISSING_AUTHORIZATION" ∉ detected_risks →
      build_reviewer_suggestion recommendation detected_risks =
        "Proceed with targeted compliance review on extracted risk indicators.") := by
  refine ⟨?_, ?_, ?_, ?_⟩
  · intro h
    unfold build_reviewer_suggestion
    rw [if_pos h]
  · intro h hm
    unfold build_reviewer_suggestion
    rw [if_neg h, if_pos ((contains_iff_mem _ _).mpr hm)]
  · intro h hm
    subst h
    unfold build_reviewer_suggestion
    rw [if_neg (by simp), if_neg (fun hc => hm ((contains_iff_mem _ _).mp hc)),
      if_pos rfl]
  · intro h1 h2 hm
    unfold build_reviewer_suggestion
    rw [if_neg h1, if_neg (fun hc => hm ((contains_iff_mem _ _).mp hc)), if_neg h2]

/-- Claim C8 (witness): HIGH_RISK_HOLD with no detected risks yields the
escalation text. -/
theorem reviewer_suggestion_order_witness :
    build_reviewer_suggestion .HIGH_RISK_HOLD [] =
      "High-risk hold recommended. Escalate to compliance specialist for manual review." :=
  (reviewer_suggestion_order .HIGH_RISK_HOLD []).2.2.1 rfl (by simp)

/-- Claim C9: the five ensemble weights sum exactly to 1, and the trust score is
monotone in each model score in the expected direction, with all other scores
held fixed. -/
theorem weights_sum_one_and_trust_monotone :
    wXgboost + wRf + wIsolation + wAutoencoder + wNlp = 1 ∧
    (∀ x x2 r i a n : ℚ, x ≤ x2 →
      compute_trust_score x2 r i a n ≤ compute_trust_score x r i a n) ∧
    (∀ x r r2 i a n : ℚ, r ≤ r2 →
      compute_trust_score x r i a n ≤ compute_trust_score x r2 i a n) ∧
    (∀ x r i i2 a n : ℚ, i ≤ i2 →
      compute_trust_score x r i2 a n ≤ compute_trust_score x r i a n) ∧
    (∀ x r i a a2 n : ℚ, a ≤ a2 →
      compute_trust_score x r i a2 n ≤ compute_trust_score x r i a n) ∧
    (∀ x r i a n n2 : ℚ, n ≤ n2 →
      compute_trust_score x r i a n2 ≤ compute_trust_score x r i a n) := by
  have mono : ∀ t1 t2 : ℚ, t1 ≤ t2 →
      roundTo 2 (clip 0 100 (t1 * 100)) ≤ roundTo 2 (clip 0 100 (t2 * 100)) := by
    intro t1 t2 h
    exact roundTo_mono 2 (clip_mono (by norm_num)
      (mul_le_mul_of_nonneg_right h (by norm_num)))
  refine ⟨by unfold wXgboost wRf wIsolation wAutoencoder wNlp; norm_num,
    ?_, ?_, ?_, ?_, ?_⟩ <;>
    (intro x y r i a n h
     simp only [compute_trust_score]
     apply mono
     unfold wXgboost wRf wIsolation wAutoencoder wNlp
     linarith)

/-- Claim C9 (witness): raising the fraud score from 0 to 1 does not raise the
trust score. -/
theorem weights_sum_one_and_trust_monotone_witness :
    compute_trust_score 1 0 0 0 0 ≤ compute_trust_score 0 0 0 0 0 :=
  weights_sum_one_and_trust_monotone.2.1 0 1 0 0 0 0 (by norm_num)

/-- Claim C1 (witness): the trust-score formula at all scores one half. -/
theorem trust_score_is_weighted_formula_witness :
    compute_trust_score (1/2) (1/2) (1/2) (1/2) (1/2) =
      roundTo 2 (clip 0 100 (100 * (30/100 * (1 - 1/2) + 25/100 * (1/2)
        + 20/100 * (1 - 1/2) + 15/100 * (1 - 1/2) + 10/100 * (1 - 1/2)))) :=
  (trust_score_is_weighted_formula (1/2) (1/2) (1/2) (1/2) (1/2)
    (by norm_num) (by norm_num) (by norm_num) (by norm_num) (by norm_num)
    (by norm_num) (by norm_num) (by norm_num) (by norm_num) (by norm_num)).1

/-- Claim C2 (witness): a trust score of 90 is auto-approved. -/
theorem recommendation_bands_witness :
    determine_recommendation 90 = .AUTO_APPROVE :=
  (recommendation_bands.1 90).1.mpr (by norm_num)

/-- Claim C4 (witness): AUTO_APPROVE with no risks is auto-approval eligible. -/
theorem auto_approval_eligibility_witness :
    (revalidation_decision "submitted" .AUTO_APPROVE []).auto_approval_eligible = true :=
  (auto_approval_eligibility.1 "submitted" .AUTO_APPROVE []).mpr
    ⟨rfl, by simp, by simp⟩

end CareVerify
